import Mathlib

/-!
Verification development for the ai-chatbot-backend service.

This file gives a shallow embedding, in Lean 4, of the parts of the backend
that its specification makes claims about:

* `app/services/openrouter_service.py` - the completion client
  (`generate_response`, `_get_complete_response`, `_stream_response`,
  `format_messages_for_api`, `generate_chat_title`);
* `app/services/user_service.py` - the session/message repository
  (`create_user`, `get_user_by_email`, `add_message_to_session`,
  `get_session_messages`, `get_session_by_id`, `update_session_title`);
* `app/routes/auth.py` - `register` and `get_current_user_dependency`;
* `app/routes/chat.py` - the session-scoped chat handlers.

Modelling conventions:

* Python exceptions are modelled with `Except Exn`; an embedded function that
  cannot throw is total.
* The external JSON parser (`json.loads`) and the HTTP transport (`httpx`)
  are external collaborators; they enter the model as parameters
  (`parseJson : String -> Option Json`, `NetEnv`).  The body of a provider
  HTTP response is a value of the `Json` model below.
* The relational store is modelled as an explicit `Db` state threaded through
  the repository operations; `db.now` is a logical clock that advances on
  every committing write, so creation timestamps of successive writes are
  strictly increasing.
* Floating-point request fields (the fixed sampling temperature 0.7) carry no
  claim and are omitted from the `Payload` record; every other payload field
  is kept.
-/

namespace Chatbot

/-! ## JSON values

Output domain of the external JSON parser (`json.loads`) and shape of the
bodies returned by `response.json()`. -/

inductive Json where
  | null
  | bool (b : Bool)
  | num (n : Int)
  | str (s : String)
  | arr (elems : List Json)
  | obj (fields : List (String × Json))

/-- Python exception classes distinguished by `generate_response`'s handlers:
`httpx.TimeoutException`, `httpx.RequestError`, and every other exception
(`KeyError`, `TypeError`, `AttributeError`, `httpx.HTTPStatusError`, ...). -/
inductive Exn where
  | timeoutExc
  | requestExc
  | otherExc
deriving DecidableEq, Repr

/-- First-match lookup in the field list of a parsed JSON object.  Dictionaries
produced by `json.loads` have unique keys, so first-match agrees with the
Python dict lookup. -/
def jfind : List (String × Json) → String → Option Json
  | [], _ => none
  | f :: rest, key => if f.1 = key then some f.2 else jfind rest key

/-- Python `key in container` for a parsed-JSON `container` and a string
`key`: key test on a dict, element test on a list, substring test on a
string, `TypeError` otherwise. -/
def pyContains (container : Json) (key : String) : Except Exn Bool :=
  match container with
  | .obj fields => .ok (jfind fields key).isSome
  | .arr elems => .ok (elems.any (fun j => match j with | .str s => s = key | _ => false))
  | .str s => .ok (key = "" || 2 ≤ (s.splitOn key).length)
  | _ => .error .otherExc

/-- Python `container[key]` for a string `key`: dict lookup (raising
`KeyError` when absent), `TypeError` on every non-dict. -/
def pySubscript (container : Json) (key : String) : Except Exn Json :=
  match container with
  | .obj fields =>
    match jfind fields key with
    | some v => .ok v
    | none => .error .otherExc
  | _ => .error .otherExc

/-- Python `len(v)`: length of a list, a string, or a dict; `TypeError`
otherwise. -/
def pyLen (v : Json) : Except Exn Nat :=
  match v with
  | .arr elems => .ok elems.length
  | .str s => .ok s.length
  | .obj fields => .ok fields.length
  | _ => .error .otherExc

/-- Python `v[0]`: first element of a list, first character of a string
(as a 1-character string), error otherwise. -/
def pyIndexZero (v : Json) : Except Exn Json :=
  match v with
  | .arr elems =>
    match elems with
    | e :: _ => .ok e
    | [] => .error .otherExc
  | .str s => if s.length > 0 then .ok (.str (s.take 1)) else .error .otherExc
  | _ => .error .otherExc

/-- Python `v.get(key, dflt)`: defaulted dict lookup; `AttributeError` on a
non-dict. -/
def pyDictGet (v : Json) (key : String) (dflt : Json) : Except Exn Json :=
  match v with
  | .obj fields => .ok ((jfind fields key).getD dflt)
  | _ => .error .otherExc

/-- Python `s.strip()`: remove every leading and trailing whitespace
character. -/
def pyStripWs (s : String) : String :=
  String.mk (((s.toList.dropWhile Char.isWhitespace).reverse.dropWhile
    Char.isWhitespace).reverse)

/-- Python `s.startswith(p)` (character-based, like Python). -/
def pyStartsWith (s pfx : String) : Bool :=
  pfx.toList.isPrefixOf s.toList

/-- Python `s[n:]`: drop the first `n` characters. -/
def pyDropChars (s : String) (n : Nat) : String :=
  String.mk (s.toList.drop n)

/-- Python `s[:n]`: the first `n` characters. -/
def pyTakeChars (s : String) (n : Nat) : String :=
  String.mk (s.toList.take n)

/-! ## Fixed strings of the completion client -/

def notConfiguredText : String :=
  "I apologize, but I'm not properly configured to respond right now. Please contact the administrator."

def takingTooLongText : String :=
  "I apologize, but I'm taking too long to respond. Please try again."

def troubleConnectingText : String :=
  "I'm having trouble connecting right now. Please try again in a moment."

def unexpectedErrorText : String :=
  "I encountered an unexpected error. Please try again."

def unexpectedFormatText : String :=
  "I received an unexpected response format. Please try again."

def couldNotGenerateText : String :=
  "I couldn't generate a response. Please try again."

def systemPromptText : String :=
  "You are a helpful AI assistant. Provide informative, accurate, and engaging responses. Be concise but thorough in your answers."

def titlePromptText : String :=
  "Generate a concise, descriptive title (max 5 words) for a chat conversation based on the user's first message. Only return the title, nothing else."

/-! ## Completion client (`app/services/openrouter_service.py`) -/

/-- One entry of the provider-format message list. -/
structure ApiMessage where
  role : String
  content : String
deriving DecidableEq, Repr

/-- The request payload built by `generate_response` (the constant sampling
temperature, a float, carries no claim and is omitted). -/
structure Payload where
  model : String
  messages : List ApiMessage
  max_tokens : Nat
  stream : Bool

/-- The configuration the service object reads from `settings`. -/
structure ORConfig where
  api_key : String
  model : String
deriving DecidableEq, Repr

/-- The HTTP transport, as an environment: what the POST of a given payload
yields on the non-streaming path (an exception, or a parsed response body)
and on the streaming path (an exception, or the received event lines). -/
structure NetEnv where
  complete : Payload → Except Exn Json
  streamLines : Payload → Except Exn (List String)

/-- `OpenRouterService._get_complete_response`, after the POST succeeded with
body `data`:

python: if "choices" in data and len(data["choices"]) > 0:
            return data["choices"][0]["message"]["content"].strip()
        else: return fallback -/
def get_complete_response (data : Json) : Except Exn String :=
  match pyContains data "choices" with
  | .error e => .error e
  | .ok false => .ok unexpectedFormatText
  | .ok true =>
    match pySubscript data "choices" with
    | .error e => .error e
    | .ok cs =>
      match pyLen cs with
      | .error e => .error e
      | .ok 0 => .ok unexpectedFormatText
      | .ok (_ + 1) =>
        match pySubscript data "choices" with
        | .error e => .error e
        | .ok cs2 =>
          match pyIndexZero cs2 with
          | .error e => .error e
          | .ok c0 =>
            match pySubscript c0 "message" with
            | .error e => .error e
            | .ok msg =>
              match pySubscript msg "content" with
              | .error e => .error e
              | .ok (.str s) => .ok (pyStripWs s)
              | .ok _ => .error .otherExc

/-- The per-event body of `_stream_response`'s loop, applied to one parsed
event `data`; returns the content fragment of the first delta if present:

python: if "choices" in data and len(data["choices"]) > 0:
            delta = data["choices"][0].get("delta", \x7b\x7d)
            if "content" in delta: full_response += delta["content"] -/
def process_event (data : Json) : Except Exn (Option String) :=
  match pyContains data "choices" with
  | .error e => .error e
  | .ok false => .ok none
  | .ok true =>
    match pySubscript data "choices" with
    | .error e => .error e
    | .ok cs =>
      match pyLen cs with
      | .error e => .error e
      | .ok 0 => .ok none
      | .ok (_ + 1) =>
        match pySubscript data "choices" with
        | .error e => .error e
        | .ok cs2 =>
          match pyIndexZero cs2 with
          | .error e => .error e
          | .ok c0 =>
            match pyDictGet c0 "delta" (Json.obj []) with
            | .error e => .error e
            | .ok delta =>
              match pyContains delta "content" with
              | .error e => .error e
              | .ok false => .ok none
              | .ok true =>
                match pySubscript delta "content" with
                | .error e => .error e
                | .ok (.str s) => .ok (some s)
                | .ok _ => .error .otherExc

/-- The line loop of `_stream_response` over the received event lines, with
accumulator `acc` (`full_response`).  Lines that do not start with the
`data: ` marker are ignored; `[DONE]` stops the loop; an event whose payload
does not parse as JSON is skipped. -/
def stream_loop (parseJson : String → Option Json) :
    List String → String → Except Exn String
  | [], acc => .ok acc
  | line :: rest, acc =>
    if pyStartsWith line "data: " then
      let dataStr := pyDropChars line 6
      if pyStripWs dataStr = "[DONE]" then .ok acc
      else
        match parseJson dataStr with
        | none => stream_loop parseJson rest acc
        | some data =>
          match process_event data with
          | .error e => .error e
          | .ok none => stream_loop parseJson rest acc
          | .ok (some frag) => stream_loop parseJson rest (acc ++ frag)
    else
      stream_loop parseJson rest acc

/-- `OpenRouterService._stream_response` after the stream opened with event
lines `lines`:

python: return full_response.strip() if full_response else fallback -/
def stream_response (parseJson : String → Option Json) (lines : List String) :
    Except Exn String :=
  match stream_loop parseJson lines "" with
  | .error e => .error e
  | .ok full => .ok (if full ≠ "" then pyStripWs full else couldNotGenerateText)

/-- The request payload built by `generate_response` for a given message
list and stream flag. -/
def requestPayload (cfg : ORConfig) (messages : List ApiMessage)
    (stream : Bool) : Payload :=
  { model := cfg.model, messages := messages, max_tokens := 2000, stream := stream }

/-- `OpenRouterService.generate_response`.  The first component of the result
records whether a network call was made; the second is the returned text.
All three exception handlers of the source are modelled, including exceptions
raised inside the two response-processing helpers. -/
def generate_response (cfg : ORConfig) (env : NetEnv)
    (parseJson : String → Option Json) (messages : List ApiMessage)
    (stream : Bool) : Bool × String :=
  if cfg.api_key = "" then
    (false, notConfiguredText)
  else
    let payload : Payload := requestPayload cfg messages stream
    let attempt : Except Exn String :=
      if stream then
        match env.streamLines payload with
        | .error e => .error e
        | .ok lines => stream_response parseJson lines
      else
        match env.complete payload with
        | .error e => .error e
        | .ok body => get_complete_response body
    (true,
      match attempt with
      | .ok text => text
      | .error .timeoutExc => takingTooLongText
      | .error .requestExc => troubleConnectingText
      | .error .otherExc => unexpectedErrorText)

/-- A `ChatMessage` row (the fields of `app/models`' message table used by
the embedded code). -/
structure ChatMessageRec where
  id : Nat
  session_id : Nat
  content : String
  sender_type : String
  created_at : Nat
deriving DecidableEq, Repr

/-- `OpenRouterService.format_messages_for_api`. -/
def format_messages_for_api (chat_messages : List ChatMessageRec) :
    List ApiMessage :=
  { role := "system", content := systemPromptText } ::
    chat_messages.map (fun msg =>
      { role := if msg.sender_type = "user" then "user" else "assistant",
        content := msg.content })

/-- Python `s.strip(c)` for a single character `c`: removes every leading and
every trailing occurrence of `c`. -/
def stripCharBoth (s : String) (c : Char) : String :=
  String.mk (((s.toList.dropWhile (fun x => x = c)).reverse.dropWhile
    (fun x => x = c)).reverse)

/-- The double-quote character. -/
def dquote : Char := Char.ofNat 34

/-- The single-quote character. -/
def squote : Char := Char.ofNat 39

/-- The two-message request list built by `generate_chat_title`. -/
def titleRequestMessages (first_message : String) : List ApiMessage :=
  [{ role := "system", content := titlePromptText },
   { role := "user", content := first_message }]

/-- The post-processing applied by `generate_chat_title` to the string the
underlying completion call returned:

python: if len(title) > 50: title = title[:47] + "..."
        return title.strip(DQUOTE).strip(SQUOTE) -/
def postprocess_title (title : String) : String :=
  let t := if title.length > 50 then pyTakeChars title 47 ++ "..." else title
  stripCharBoth (stripCharBoth t dquote) squote

/-- `OpenRouterService.generate_chat_title`, body of the `try`. -/
def generate_chat_title (cfg : ORConfig) (env : NetEnv)
    (parseJson : String → Option Json) (first_message : String) : String :=
  postprocess_title
    ((generate_response cfg env parseJson (titleRequestMessages first_message) false).2)

/-- The `try/except` wrapper of `generate_chat_title`: if the body raises,
the fixed default title is returned.  In this embedding the body is total
(`generate_response` already catches every provider failure), so the
exceptional branch is reachable only through failures outside the model
(e.g. task cancellation), represented by an `Except.error` argument. -/
def generate_chat_title_guarded (body : Except Exn String) : String :=
  match body with
  | .ok t => t
  | .error _ => "New Chat"

/-! ## Data model and repository (`app/models`, `app/services/user_service.py`)

The store is a value of type `Db`.  `db.now` is the logical clock: every
committing write stamps the current clock and advances it, so rows written
later have strictly larger timestamps (the store's `func.now()` /
`server_default=func.now()`). -/

/-- A `User` row. -/
structure UserRec where
  id : Nat
  email : String
  name : String
  hashed_password : String
  is_active : Bool
  created_at : Nat
deriving DecidableEq, Repr

/-- A `ChatSession` row. -/
structure ChatSessionRec where
  id : Nat
  user_id : Nat
  title : String
  created_at : Nat
  updated_at : Nat
deriving DecidableEq, Repr

/-- The relational store. -/
structure Db where
  users : List UserRec
  sessions : List ChatSessionRec
  messages : List ChatMessageRec
  nextId : Nat
  now : Nat
deriving DecidableEq, Repr

/-- The registration payload (schema `UserCreate`). -/
structure UserCreate where
  email : String
  name : String
  password : String
deriving DecidableEq, Repr

/-- The message-creation payload (schema `ChatMessageCreate`): the client
supplies both a content and an arbitrary `sender_type` string. -/
structure ChatMessageCreate where
  content : String
  sender_type : String
deriving DecidableEq, Repr

/-- `UserService.get_user_by_email`. -/
def get_user_by_email (db : Db) (email : String) : Option UserRec :=
  db.users.find? (fun u => u.email = email)

/-- `UserService.create_user`.  The password-hashing primitive is an external
collaborator, passed in as `hashPassword`; `is_active` takes the column
default. -/
def create_user (hashPassword : String → String) (db : Db) (user : UserCreate) :
    UserRec × Db :=
  let newUser : UserRec :=
    { id := db.nextId, email := user.email, name := user.name,
      hashed_password := hashPassword user.password, is_active := true,
      created_at := db.now }
  (newUser,
    { db with
        users := db.users ++ [newUser],
        nextId := db.nextId + 1,
        now := db.now + 1 })

/-- `ChatService.get_session_by_id`. -/
def get_session_by_id (db : Db) (session_id : Nat) : Option ChatSessionRec :=
  db.sessions.find? (fun s => s.id = session_id)

/-- `ChatService.add_message_to_session`: commit the new message row, then
set the parent session's `updated_at` to the current time (the source's
`session.updated_at = func.now()`; no update happens when the session row
does not exist). -/
def add_message_to_session (db : Db) (session_id : Nat)
    (content sender_type : String) : ChatMessageRec × Db :=
  let msg : ChatMessageRec :=
    { id := db.nextId, session_id := session_id, content := content,
      sender_type := sender_type, created_at := db.now }
  let sessions := db.sessions.map (fun s =>
    if s.id = session_id then { s with updated_at := db.now } else s)
  (msg,
    { db with
        messages := db.messages ++ [msg],
        sessions := sessions,
        nextId := db.nextId + 1,
        now := db.now + 1 })

/-- `ChatService.get_session_messages`: the session's messages ordered by
`created_at` ascending (a stable sort models the store's ORDER BY). -/
def get_session_messages (db : Db) (session_id : Nat) : List ChatMessageRec :=
  List.insertionSort (fun a b => a.created_at ≤ b.created_at)
    (db.messages.filter (fun m => m.session_id = session_id))

/-- `ChatService.update_session_title`. -/
def update_session_title (db : Db) (session_id : Nat) (title : String) : Db :=
  { db with sessions := db.sessions.map (fun s =>
      if s.id = session_id then { s with title := title } else s) }

/-! ## Request handlers (`app/routes/auth.py`, `app/routes/chat.py`) -/

/-- Outcome of a handler: a value, or an `HTTPException` with a status code
and a detail string. -/
inductive HandlerOutcome (α : Type) where
  | ok (value : α)
  | httpError (statusCode : Nat) (detail : String)
deriving DecidableEq, Repr

/-- The detail string of the ownership-check failure in every session-scoped
chat handler. -/
def sessionNotFoundDetail : String := "Chat session not found"

/-- The ownership check repeated verbatim at the top of the four
session-scoped chat handlers:

python: session = ChatService.get_session_by_id(db, session_id)
        if not session or session.user_id != current_user.id: raise 404

`none` means the handler raises 404 `sessionNotFoundDetail`. -/
def session_ownership_check (db : Db) (session_id caller_id : Nat) :
    Option ChatSessionRec :=
  match get_session_by_id db session_id with
  | none => none
  | some s => if s.user_id ≠ caller_id then none else some s

/-- `get_current_user_dependency` (`app/routes/auth.py`).  The bearer-token
verification primitive (`app/utils/auth.py`, an external collaborator here)
is passed in as `verifyToken`, returning the embedded subject email when the
token is valid. -/
def get_current_user_dependency (verifyToken : String → Option String)
    (db : Db) (token : String) : HandlerOutcome UserRec :=
  match verifyToken token with
  | none => .httpError 401 "Invalid token"
  | some email =>
    match get_user_by_email db email with
    | none => .httpError 404 "User not found"
    | some u => .ok u

/-- The `register` handler (`app/routes/auth.py`): reject a duplicate email
with 400, otherwise create the user and return its id and email. -/
def register (hashPassword : String → String) (db : Db) (user : UserCreate) :
    HandlerOutcome (Nat × String) × Db :=
  match get_user_by_email db user.email with
  | some _ => (.httpError 400 "Email already registered", db)
  | none =>
    let created := create_user hashPassword db user
    (.ok (created.1.id, created.1.email), created.2)

/-- The `GET /chat/sessions/\x7bid\x7d/messages` handler. -/
def handler_get_session_messages (db : Db) (caller_id session_id : Nat) :
    HandlerOutcome (List ChatMessageRec) :=
  match session_ownership_check db session_id caller_id with
  | none => .httpError 404 sessionNotFoundDetail
  | some _ => .ok (get_session_messages db session_id)

/-- The `POST /chat/sessions/\x7bid\x7d/messages` handler (`send_message`):
persist the incoming message with sender role `"user"`, possibly auto-title
the session after its first user message, call the completion client, and
persist its reply with sender role `"bot"`. -/
def handler_send_message (cfg : ORConfig) (env : NetEnv)
    (parseJson : String → Option Json) (db : Db) (caller_id session_id : Nat)
    (message : ChatMessageCreate) : HandlerOutcome ChatMessageRec × Db :=
  match session_ownership_check db session_id caller_id with
  | none => (.httpError 404 sessionNotFoundDetail, db)
  | some _ =>
    let db1 := (add_message_to_session db session_id message.content "user").2
    let previous_messages := get_session_messages db1 session_id
    let user_messages_count :=
      (previous_messages.filter (fun m => m.sender_type = "user")).length
    let db2 :=
      if user_messages_count = 1 then
        update_session_title db1 session_id
          (generate_chat_title cfg env parseJson message.content)
      else db1
    let formatted_messages := format_messages_for_api previous_messages
    let ai_response_text :=
      (generate_response cfg env parseJson formatted_messages false).2
    let appended := add_message_to_session db2 session_id ai_response_text "bot"
    (.ok appended.1, appended.2)

/-- The `DELETE /chat/sessions/\x7bid\x7d` handler: delete the session, which
cascades to its messages, and answer with the success envelope
(success flag, message). -/
def handler_delete_session (db : Db) (caller_id session_id : Nat) :
    HandlerOutcome (Bool × String) × Db :=
  match session_ownership_check db session_id caller_id with
  | none => (.httpError 404 sessionNotFoundDetail, db)
  | some _ =>
    let db1 := { db with
      sessions := db.sessions.filter (fun s => s.id ≠ session_id),
      messages := db.messages.filter (fun m => m.session_id ≠ session_id) }
    (.ok (true, "Chat session deleted successfully"), db1)

/-- One server-sent frame emitted by the streaming handler: a data frame
carrying the reply message's fields, or the final `[DONE]` marker
(serialization to the wire format is done by the web framework and is not
modelled). -/
inductive StreamFrame where
  | dataFrame (id : Nat) (content : String) (sender_type : String)
      (created_at : Nat)
  | doneFrame
deriving DecidableEq, Repr

/-- The `POST /chat/sessions/\x7bid\x7d/messages/stream` handler
(`send_message_stream`).  The generator body is modelled as running to
completion: every operation it performs is total in this embedding, so its
`except` branch (the error frame) is unreachable here. -/
def handler_send_message_stream (cfg : ORConfig) (env : NetEnv)
    (parseJson : String → Option Json) (db : Db) (caller_id session_id : Nat)
    (message : ChatMessageCreate) : HandlerOutcome (List StreamFrame) × Db :=
  match session_ownership_check db session_id caller_id with
  | none => (.httpError 404 sessionNotFoundDetail, db)
  | some _ =>
    let db1 := (add_message_to_session db session_id message.content "user").2
    let previous_messages := get_session_messages db1 session_id
    let user_messages_count :=
      (previous_messages.filter (fun m => m.sender_type = "user")).length
    let db2 :=
      if user_messages_count = 1 then
        update_session_title db1 session_id
          (generate_chat_title cfg env parseJson message.content)
      else db1
    let formatted_messages := format_messages_for_api previous_messages
    let ai_response_text :=
      (generate_response cfg env parseJson formatted_messages true).2
    let appended := add_message_to_session db2 session_id ai_response_text "bot"
    (.ok [StreamFrame.dataFrame appended.1.id ai_response_text "bot"
        appended.1.created_at,
      StreamFrame.doneFrame], appended.2)

/-- Iterated `add_message_to_session`: append the given (content, role)
items to the session in order. -/
def add_messages (db : Db) (session_id : Nat) (items : List (String × String)) :
    Db :=
  items.foldl (fun d item => (add_message_to_session d session_id item.1 item.2).2) db

/-- Store sanity invariant tying rows to the logical clock: every message row
was written before now.  It holds for every store built by the repository
operations from an empty store. -/
def Db.TimesBounded (db : Db) : Prop :=
  ∀ m ∈ db.messages, m.created_at < db.now

/-- The message rows `add_messages` creates for the given items when the
store's id counter starts at `startId` and its clock at `startNow`. -/
def newMsgs (startId startNow session_id : Nat) :
    List (String × String) → List ChatMessageRec
  | [] => []
  | item :: rest =>
    { id := startId, session_id := session_id, content := item.1,
      sender_type := item.2, created_at := startNow } ::
      newMsgs (startId + 1) (startNow + 1) session_id rest

/-- Spec-side reading of the title post-processing, kept for comparison with
the embedded `postprocess_title`: after the truncation, strip at most one
leading and at most one trailing quote character of either style. -/
def postprocess_title_singleStrip (title : String) : String :=
  let t := if title.length > 50 then pyTakeChars title 47 ++ "..." else title
  let afterHead :=
    match t.toList with
    | c :: rest => if c = dquote ∨ c = squote then rest else t.toList
    | [] => t.toList
  let afterLast :=
    match afterHead.reverse with
    | c :: rest => if c = dquote ∨ c = squote then rest.reverse else afterHead
    | [] => afterHead
  String.mk afterLast

/-! ## Test fixtures (concrete environments and stores used by witnesses) -/

/-- Fixture: a transport that always fails with exception `e`. -/
def envFail (e : Exn) : NetEnv :=
  { complete := fun _ => .error e, streamLines := fun _ => .error e }

/-- Fixture: a transport whose non-streaming POST succeeds with body `j`. -/
def envBody (j : Json) : NetEnv :=
  { complete := fun _ => .ok j, streamLines := fun _ => .error .otherExc }

/-- Fixture: a transport whose streaming POST yields the given event lines. -/
def envLines (ls : List String) : NetEnv :=
  { complete := fun _ => .error .otherExc, streamLines := fun _ => .ok ls }

/-- Fixture: a JSON parser that recognizes nothing. -/
def parseNothing : String → Option Json := fun _ => none

/-- The fixed fallback text `generate_response`'s exception handlers return
for each exception class. -/
def exnFallbackText : Exn → String
  | .timeoutExc => takingTooLongText
  | .requestExc => troubleConnectingText
  | .otherExc => unexpectedErrorText

/-- Fixture: a well-formed streaming event whose first delta carries the
given content fragment. -/
def deltaEvent (content : String) : Json :=
  Json.obj [("choices",
    Json.arr [Json.obj [("delta", Json.obj [("content", Json.str content)])]])]

/-- Fixture: a JSON parser recognizing five event payloads (by the payload
string left after the marker is removed); everything else is unparseable. -/
def demoParse : String → Option Json := fun s =>
  if s = "evA" then some (deltaEvent "Hel") else
  if s = "evB" then some (deltaEvent "lo ") else
  if s = "evH1" then some (deltaEvent "Hel") else
  if s = "evH2" then some (deltaEvent "lo") else
  if s = "evX" then some (deltaEvent "XX") else none

/-- Fixture: a body with one choice whose message content has surrounding
whitespace. -/
def demoBodyOk : Json :=
  Json.obj [("choices",
    Json.arr [Json.obj [("message", Json.obj [("content", Json.str "  Hello  ")])]])]

/-- Fixture: a body whose choices array is empty. -/
def demoBodyEmptyChoices : Json := Json.obj [("choices", Json.arr [])]

/-- Fixture: the string of two double quotes, `Hi`, two double quotes. -/
def doubleQuotedHi : String := String.mk [dquote, dquote, 'H', 'i', dquote, dquote]

/-- Fixture: a token verifier accepting exactly the token `tok` with subject
`a@x.com`. -/
def tokenOnlyVerifier : String → Option String :=
  fun t => if t = "tok" then some "a@x.com" else none

/-- Fixture: the empty store. -/
def emptyDb : Db :=
  { users := [], sessions := [], messages := [], nextId := 1, now := 0 }

/-- Fixture: a store with one user who owns one fresh session (id 1) with no
messages. -/
def sessionOnlyDb : Db :=
  { users := [{ id := 1, email := "a@x.com", name := "A", hashed_password := "h",
                is_active := true, created_at := 0 }],
    sessions := [{ id := 1, user_id := 1, title := "New Chat", created_at := 1,
                   updated_at := 1 }],
    messages := [], nextId := 2, now := 2 }

/-- Fixture: a password-hashing stand-in. -/
def hashFixture : String → String := fun p => p ++ "-hashed"

/-- Fixture: a 51-character title. -/
def longTitleFixture : String :=
  "123456789012345678901234567890123456789012345678901"

/-! ## Theorems -/

/-- C1: `generate_response` never raises for provider failures (it is a total
function into `Bool × String` here): with an empty API key it returns the
fixed "not properly configured" text without making any network call (its
result does not depend on the transport at all); with a configured key, a
timeout yields the fixed "taking too long" text, a transport-level request
error the fixed "trouble connecting" text, and any other exception -
including exceptions raised while processing a received body - the fixed
generic error text, on both the streaming and the non-streaming path. -/
theorem generate_response_failure_policy (cfg : ORConfig) (env env2 : NetEnv)
    (parseJson : String → Option Json) (messages : List ApiMessage)
    (stream : Bool) (e : Exn) :
    (cfg.api_key = "" →
      generate_response cfg env parseJson messages stream =
        (false, notConfiguredText) ∧
      generate_response cfg env parseJson messages stream =
        generate_response cfg env2 parseJson messages stream) ∧
    (cfg.api_key ≠ "" →
      (env.complete (requestPayload cfg messages false) = .error e →
        generate_response cfg env parseJson messages false =
          (true, exnFallbackText e)) ∧
      (env.streamLines (requestPayload cfg messages true) = .error e →
        generate_response cfg env parseJson messages true =
          (true, exnFallbackText e)) ∧
      (∀ body, env.complete (requestPayload cfg messages false) = .ok body →
        get_complete_response body = .error e →
        generate_response cfg env parseJson messages false =
          (true, exnFallbackText e))) := by
  constructor
  · intro hkey
    constructor <;> simp [generate_response, hkey]
  · intro hkey
    refine ⟨?_, ?_, ?_⟩
    · intro hnet
      cases e <;> simp [generate_response, hkey, hnet, exnFallbackText]
    · intro hnet
      cases e <;> simp [generate_response, hkey, hnet, exnFallbackText]
    · intro body hnet hbody
      cases e <;> simp [generate_response, hkey, hnet, hbody, exnFallbackText]

/-- Witness for C1 at concrete inputs: key missing, timeout, transport error,
and a body (`null`) whose processing raises. -/
theorem generate_response_failure_policy_witness :
    generate_response { api_key := "", model := "m" } (envFail .timeoutExc)
        parseNothing [] false = (false, notConfiguredText) ∧
    generate_response { api_key := "k", model := "m" } (envFail .timeoutExc)
        parseNothing [] false = (true, takingTooLongText) ∧
    generate_response { api_key := "k", model := "m" } (envFail .requestExc)
        parseNothing [] true = (true, troubleConnectingText) ∧
    generate_response { api_key := "k", model := "m" } (envBody Json.null)
        parseNothing [] false = (true, unexpectedErrorText) := by
  refine ⟨?_, ?_, ?_, ?_⟩
  · exact ((generate_response_failure_policy { api_key := "", model := "m" }
      (envFail .timeoutExc) (envFail .timeoutExc) parseNothing [] false
      .otherExc).1 rfl).1
  · exact ((generate_response_failure_policy { api_key := "k", model := "m" }
      (envFail .timeoutExc) (envFail .timeoutExc) parseNothing [] false
      .timeoutExc).2 (by decide)).1 rfl
  · exact (((generate_response_failure_policy { api_key := "k", model := "m" }
      (envFail .requestExc) (envFail .requestExc) parseNothing [] true
      .requestExc).2 (by decide)).2.1 rfl)
  · exact (((generate_response_failure_policy { api_key := "k", model := "m" }
      (envBody Json.null) (envBody Json.null) parseNothing [] false
      .otherExc).2 (by decide)).2.2 Json.null rfl rfl)

/-- C2: `format_messages_for_api` returns the fixed system message first,
then one output per input message in the original order (length input+1, no
deduplication or truncation), mapping sender role `user` to `user` and `bot`
to `assistant`, and preserving each content unchanged. -/
theorem format_messages_for_api_spec (chat_messages : List ChatMessageRec) :
    (format_messages_for_api chat_messages).length = chat_messages.length + 1 ∧
    (format_messages_for_api chat_messages).head? =
      some { role := "system", content := systemPromptText } ∧
    (∀ i m, chat_messages[i]? = some m →
      ∃ out : ApiMessage,
        (format_messages_for_api chat_messages)[i + 1]? = some out ∧
        out.content = m.content ∧
        (m.sender_type = "user" → out.role = "user") ∧
        (m.sender_type = "bot" → out.role = "assistant")) := by
  refine ⟨by simp [format_messages_for_api], rfl, ?_⟩
  intro i m h
  refine ⟨{ role := if m.sender_type = "user" then "user" else "assistant",
            content := m.content }, ?_, rfl, ?_, ?_⟩
  · simp [format_messages_for_api, h]
  · intro h'
    simp [h']
  · intro h'
    simp [h']

/-- Witness for C2 at a concrete two-message history. -/
theorem format_messages_for_api_spec_witness :
    (format_messages_for_api
      [{ id := 1, session_id := 1, content := "hi", sender_type := "user",
         created_at := 0 },
       { id := 2, session_id := 1, content := "yo", sender_type := "bot",
         created_at := 1 }]).length = 3 ∧
    (∃ out : ApiMessage,
      (format_messages_for_api
        [{ id := 1, session_id := 1, content := "hi", sender_type := "user",
           created_at := 0 },
         { id := 2, session_id := 1, content := "yo", sender_type := "bot",
           created_at := 1 }])[1]? = some out ∧
      out.content = "hi" ∧ out.role = "user") := by
  constructor
  · exact (format_messages_for_api_spec _).1
  · obtain ⟨out, h1, h2, h3, _⟩ :=
      (format_messages_for_api_spec
        [{ id := 1, session_id := 1, content := "hi", sender_type := "user",
           created_at := 0 },
         { id := 2, session_id := 1, content := "yo", sender_type := "bot",
           created_at := 1 }]).2.2 0
        { id := 1, session_id := 1, content := "hi", sender_type := "user",
          created_at := 0 } rfl
    exact ⟨out, h1, h2, h3 rfl⟩

/-- C3: on a non-streaming success body whose first choice carries a string
message content, `_get_complete_response` returns that content trimmed of
surrounding whitespace; when the body lacks a `choices` field, or its
`choices` array is empty, it returns the fixed "unexpected response format"
text without raising. -/
theorem get_complete_response_spec :
    (∀ (fields choice0 msgFields : List (String × Json)) (rest : List Json)
        (s : String),
      jfind fields "choices" = some (Json.arr (Json.obj choice0 :: rest)) →
      jfind choice0 "message" = some (Json.obj msgFields) →
      jfind msgFields "content" = some (Json.str s) →
      get_complete_response (Json.obj fields) = .ok (pyStripWs s)) ∧
    (∀ fields, jfind fields "choices" = none →
      get_complete_response (Json.obj fields) = .ok unexpectedFormatText) ∧
    (∀ fields, jfind fields "choices" = some (Json.arr []) →
      get_complete_response (Json.obj fields) = .ok unexpectedFormatText) := by
  refine ⟨?_, ?_, ?_⟩
  · intro fields choice0 msgFields rest s h1 h2 h3
    simp [get_complete_response, pyContains, pySubscript, pyLen, pyIndexZero,
      h1, h2, h3]
  · intro fields h1
    simp [get_complete_response, pyContains, h1]
  · intro fields h1
    simp [get_complete_response, pyContains, pySubscript, pyLen, h1]

/-- Witness for C3: a concrete well-formed body (content with surrounding
whitespace), a body with no `choices` field, and a body with an empty
`choices` array. -/
theorem get_complete_response_spec_witness :
    get_complete_response demoBodyOk = .ok "Hello" ∧
    get_complete_response (Json.obj []) = .ok unexpectedFormatText ∧
    get_complete_response demoBodyEmptyChoices = .ok unexpectedFormatText := by
  refine ⟨?_, ?_, ?_⟩
  · have h := get_complete_response_spec.1
      [("choices", Json.arr [Json.obj
        [("message", Json.obj [("content", Json.str "  Hello  ")])]])]
      [("message", Json.obj [("content", Json.str "  Hello  ")])]
      [("content", Json.str "  Hello  ")] [] "  Hello  " rfl rfl rfl
    exact h.trans (congrArg Except.ok (by decide))
  · exact get_complete_response_spec.2.1 [] rfl
  · exact get_complete_response_spec.2.2 [("choices", Json.arr [])] rfl

/-- C4 counterexample: the streaming path does not return the concatenation
of the content fragments - it returns the concatenation trimmed of
surrounding whitespace.  With fragments "Hel" and "lo " the accumulated
concatenation is "Hello " but the returned text is "Hello". -/
theorem stream_response_counterexample :
    stream_response demoParse ["data: evA", "data: evB"] = .ok "Hello" ∧
    "Hel" ++ "lo " = "Hello " ∧
    stream_response demoParse ["data: evA", "data: evB"] ≠ .ok "Hello " := by
  have h1 : stream_response demoParse ["data: evA", "data: evB"] = .ok "Hello" :=
    rfl
  refine ⟨h1, by decide, ?_⟩
  rw [h1]
  intro h
  exact absurd (Except.ok.inj h) (by decide)

/-- C4 (amended): the streaming path ignores lines not prefixed with the
event marker, stops at the literal [DONE] sentinel, silently skips events
whose payload is not parseable JSON, and accumulates in arrival order the
content fragments found in the first delta of each parseable event; it
returns the whitespace-trimmed accumulated concatenation, or the fixed
"couldn't generate a response" text when the accumulated concatenation is
empty. -/
theorem stream_response_spec (parseJson : String → Option Json) :
    (∀ line rest acc, pyStartsWith line "data: " = false →
      stream_loop parseJson (line :: rest) acc =
        stream_loop parseJson rest acc) ∧
    (∀ line rest acc, pyStartsWith line "data: " = true →
      pyStripWs (pyDropChars line 6) = "[DONE]" →
      stream_loop parseJson (line :: rest) acc = .ok acc) ∧
    (∀ line rest acc, pyStartsWith line "data: " = true →
      pyStripWs (pyDropChars line 6) ≠ "[DONE]" →
      parseJson (pyDropChars line 6) = none →
      stream_loop parseJson (line :: rest) acc =
        stream_loop parseJson rest acc) ∧
    (∀ line rest acc data frag, pyStartsWith line "data: " = true →
      pyStripWs (pyDropChars line 6) ≠ "[DONE]" →
      parseJson (pyDropChars line 6) = some data →
      process_event data = .ok (some frag) →
      stream_loop parseJson (line :: rest) acc =
        stream_loop parseJson rest (acc ++ frag)) ∧
    (∀ (fields choice0 deltaFields : List (String × Json)) (rest : List Json)
        (s : String),
      jfind fields "choices" = some (Json.arr (Json.obj choice0 :: rest)) →
      jfind choice0 "delta" = some (Json.obj deltaFields) →
      jfind deltaFields "content" = some (Json.str s) →
      process_event (Json.obj fields) = .ok (some s)) ∧
    (∀ lines full, stream_loop parseJson lines "" = .ok full →
      stream_response parseJson lines =
        .ok (if full ≠ "" then pyStripWs full else couldNotGenerateText)) ∧
    stream_response demoParse
      ["noise", "data: garbage", "data: evH1", "data: evH2",
       "data: [DONE]", "data: evX"] = .ok "Hello" := by
  refine ⟨?_, ?_, ?_, ?_, ?_, ?_, rfl⟩
  · intro line rest acc h
    simp [stream_loop, h]
  · intro line rest acc h1 h2
    simp [stream_loop, h1, h2]
  · intro line rest acc h1 h2 h3
    simp [stream_loop, h1, h2, h3]
  · intro line rest acc data frag h1 h2 h3 h4
    simp [stream_loop, h1, h2, h3, h4]
  · intro fields choice0 deltaFields rest s h1 h2 h3
    simp [process_event, pyContains, pySubscript, pyLen, pyIndexZero,
      pyDictGet, h1, h2, h3]
  · intro lines full h
    simp [stream_response, h]

/-- Witness for C4's amended theorem: each hypothesized conjunct applied at a
concrete line and stream state. -/
theorem stream_response_spec_witness :
    stream_loop demoParse ["nope"] "x" = stream_loop demoParse [] "x" ∧
    stream_loop demoParse ["data: [DONE]", "data: evX"] "acc" = .ok "acc" ∧
    stream_loop demoParse ["data: garbage"] "" = stream_loop demoParse [] "" ∧
    stream_loop demoParse ["data: evA"] "" =
      stream_loop demoParse [] ("" ++ "Hel") ∧
    process_event (deltaEvent "Hel") = .ok (some "Hel") ∧
    stream_response demoParse ["data: evA", "data: evB"] =
      .ok (pyStripWs "Hello ") := by
  refine ⟨?_, ?_, ?_, ?_, ?_, ?_⟩
  · exact (stream_response_spec demoParse).1 "nope" [] "x" (by decide)
  · exact (stream_response_spec demoParse).2.1 "data: [DONE]" ["data: evX"]
      "acc" (by decide) (by decide)
  · exact (stream_response_spec demoParse).2.2.1 "data: garbage" [] ""
      (by decide) (by decide) rfl
  · exact (stream_response_spec demoParse).2.2.2.1 "data: evA" [] ""
      (deltaEvent "Hel") "Hel" (by decide) (by decide) rfl rfl
  · exact (stream_response_spec demoParse).2.2.2.2.1
      [("choices", Json.arr [Json.obj
        [("delta", Json.obj [("content", Json.str "Hel")])]])]
      [("delta", Json.obj [("content", Json.str "Hel")])]
      [("content", Json.str "Hel")] [] "Hel" rfl rfl rfl
  · exact (stream_response_spec demoParse).2.2.2.2.2.1
      ["data: evA", "data: evB"] "Hello " rfl

/-- Helper: dropping leading occurrences of `c` leaves a list that does not
begin with `c`. -/
theorem head?_dropWhile_ne (l : List Char) (c : Char) :
    (l.dropWhile (fun x => x = c)).head? ≠ some c := by
  intro h
  have hne : l.dropWhile (fun x => x = c) ≠ [] := by
    intro hnil
    rw [hnil] at h
    simp at h
  have hd := List.head_dropWhile_not (fun x => x = c) l hne
  rw [List.head?_eq_head hne] at h
  rw [Option.some.inj h] at hd
  simp at hd

/-- Helper: `stripCharBoth s c` neither begins nor ends with `c`. -/
theorem stripCharBoth_ends (s : String) (c : Char) :
    (stripCharBoth s c).toList.head? ≠ some c ∧
    (stripCharBoth s c).toList.getLast? ≠ some c := by
  have hres : (stripCharBoth s c).toList =
      ((s.toList.dropWhile (fun x => x = c)).reverse.dropWhile
        (fun x => x = c)).reverse := rfl
  constructor
  · rw [hres, List.head?_reverse]
    intro hlast
    obtain ⟨t, ht⟩ := List.dropWhile_suffix
      (l := (s.toList.dropWhile (fun x => x = c)).reverse) (fun x => x = c)
    have hrevLast :
        ((s.toList.dropWhile (fun x => x = c)).reverse).getLast? = some c := by
      rw [← ht, List.getLast?_append, hlast]
      rfl
    rw [List.getLast?_reverse] at hrevLast
    exact head?_dropWhile_ne _ c hrevLast
  · rw [hres, List.getLast?_reverse]
    exact head?_dropWhile_ne _ c

/-- C5 counterexample: the title post-processing strips every leading and
trailing quote character, not a single one of either style: on the title
consisting of `Hi` surrounded by two double quotes on each side the code
yields `Hi`, while stripping a single quote per side would leave one double
quote on each side; the same title flows through `generate_chat_title`
end to end. -/
theorem generate_chat_title_counterexample :
    postprocess_title doubleQuotedHi = "Hi" ∧
    postprocess_title_singleStrip doubleQuotedHi =
      String.mk [dquote, 'H', 'i', dquote] ∧
    postprocess_title doubleQuotedHi ≠
      postprocess_title_singleStrip doubleQuotedHi ∧
    generate_chat_title { api_key := "k", model := "m" }
      (envBody (Json.obj [("choices", Json.arr [Json.obj
        [("message", Json.obj [("content", Json.str doubleQuotedHi)])]])]))
      parseNothing "hello" = "Hi" := by
  refine ⟨rfl, rfl, by decide, rfl⟩

/-- C5 (amended): `generate_chat_title` post-processes the string returned
by the underlying completion call: a string longer than 50 characters is
truncated to its first 47 characters with an ellipsis marker appended; then
all leading and trailing double-quote characters are stripped, and then all
leading and trailing single-quote characters (so the result never begins or
ends with a single quote); on any failure in this path the fixed default
title is returned. -/
theorem generate_chat_title_spec (cfg : ORConfig) (env : NetEnv)
    (parseJson : String → Option Json) (first_message t : String) (e : Exn) :
    generate_chat_title cfg env parseJson first_message =
      postprocess_title
        ((generate_response cfg env parseJson
          (titleRequestMessages first_message) false).2) ∧
    (t.length ≤ 50 →
      postprocess_title t = stripCharBoth (stripCharBoth t dquote) squote) ∧
    (t.length > 50 →
      postprocess_title t =
        stripCharBoth (stripCharBoth (pyTakeChars t 47 ++ "...") dquote)
          squote) ∧
    (postprocess_title t).toList.head? ≠ some squote ∧
    (postprocess_title t).toList.getLast? ≠ some squote ∧
    generate_chat_title_guarded (.error e) = "New Chat" := by
  refine ⟨rfl, ?_, ?_, ?_, ?_, rfl⟩
  · intro h
    have h' : ¬ (t.length > 50) := by omega
    simp [postprocess_title, h']
  · intro h
    simp [postprocess_title, h]
  · exact (stripCharBoth_ends _ squote).1
  · exact (stripCharBoth_ends _ squote).2


/-- Witness for C5's amended theorem: both truncation branches at concrete
titles. -/
theorem generate_chat_title_spec_witness :
    postprocess_title "abc" = stripCharBoth (stripCharBoth "abc" dquote) squote ∧
    postprocess_title longTitleFixture =
      stripCharBoth (stripCharBoth (pyTakeChars longTitleFixture 47 ++ "...")
        dquote) squote := by
  constructor
  · exact (generate_chat_title_spec { api_key := "", model := "" }
      (envFail .otherExc) parseNothing "" "abc" .otherExc).2.1 (by decide)
  · exact (generate_chat_title_spec { api_key := "", model := "" }
      (envFail .otherExc) parseNothing "" longTitleFixture .otherExc).2.2.1
      (by decide)

/-- C6: for every session-scoped chat operation (list messages, send
message, stream message, delete session), a session that does not exist and
a session owned by a different user produce the identical not-found outcome
- 404 with the same detail and an unchanged store - never a distinguishable
forbidden outcome. -/
theorem session_handlers_uniform_not_found (db : Db) (caller session_id : Nat) :
    (get_session_by_id db session_id = none →
      ∀ cfg env parseJson message,
        handler_get_session_messages db caller session_id =
          .httpError 404 sessionNotFoundDetail ∧
        handler_send_message cfg env parseJson db caller session_id message =
          (.httpError 404 sessionNotFoundDetail, db) ∧
        handler_send_message_stream cfg env parseJson db caller session_id
          message = (.httpError 404 sessionNotFoundDetail, db) ∧
        handler_delete_session db caller session_id =
          (.httpError 404 sessionNotFoundDetail, db)) ∧
    (∀ s, get_session_by_id db session_id = some s → s.user_id ≠ caller →
      ∀ cfg env parseJson message,
        handler_get_session_messages db caller session_id =
          .httpError 404 sessionNotFoundDetail ∧
        handler_send_message cfg env parseJson db caller session_id message =
          (.httpError 404 sessionNotFoundDetail, db) ∧
        handler_send_message_stream cfg env parseJson db caller session_id
          message = (.httpError 404 sessionNotFoundDetail, db) ∧
        handler_delete_session db caller session_id =
          (.httpError 404 sessionNotFoundDetail, db)) := by
  constructor
  · intro h cfg env parseJson message
    refine ⟨?_, ?_, ?_, ?_⟩ <;>
      simp [handler_get_session_messages, handler_send_message,
        handler_send_message_stream, handler_delete_session,
        session_ownership_check, h]
  · intro s hs howner cfg env parseJson message
    refine ⟨?_, ?_, ?_, ?_⟩ <;>
      simp [handler_get_session_messages, handler_send_message,
        handler_send_message_stream, handler_delete_session,
        session_ownership_check, hs, howner]

/-- Witness for C6: in a store with one session (id 1, owner 1), the foreign
caller 2 on session 1 and the legitimate caller 1 on the missing session 99
observe the same 404 outcome on all four operations. -/
theorem session_handlers_uniform_not_found_witness :
    handler_get_session_messages sessionOnlyDb 1 99 =
      .httpError 404 sessionNotFoundDetail ∧
    handler_get_session_messages sessionOnlyDb 2 1 =
      .httpError 404 sessionNotFoundDetail ∧
    handler_delete_session sessionOnlyDb 2 1 =
      (.httpError 404 sessionNotFoundDetail, sessionOnlyDb) ∧
    handler_send_message { api_key := "", model := "m" } (envFail .otherExc)
      parseNothing sessionOnlyDb 2 1
      { content := "hi", sender_type := "anything" } =
      (.httpError 404 sessionNotFoundDetail, sessionOnlyDb) ∧
    handler_send_message_stream { api_key := "", model := "m" }
      (envFail .otherExc) parseNothing sessionOnlyDb 2 1
      { content := "hi", sender_type := "anything" } =
      (.httpError 404 sessionNotFoundDetail, sessionOnlyDb) := by
  have hmiss := (session_handlers_uniform_not_found sessionOnlyDb 1 99).1 rfl
    { api_key := "", model := "m" } (envFail .otherExc) parseNothing
    { content := "hi", sender_type := "anything" }
  have hforeign := (session_handlers_uniform_not_found sessionOnlyDb 2 1).2
    { id := 1, user_id := 1, title := "New Chat", created_at := 1,
      updated_at := 1 } rfl (by decide)
    { api_key := "", model := "m" } (envFail .otherExc) parseNothing
    { content := "hi", sender_type := "anything" }
  exact ⟨hmiss.1, hforeign.1, hforeign.2.2.2, hforeign.2.1, hforeign.2.2.1⟩

/-- C7 counterexample: with a token that verifies to a subject that resolves
to no user, the dependency yields the not-found outcome 404 "User not
found", which differs from the 401 unauthenticated outcome produced when
token verification fails. -/
theorem get_current_user_dependency_counterexample :
    get_current_user_dependency tokenOnlyVerifier emptyDb "tok" =
      .httpError 404 "User not found" ∧
    get_current_user_dependency tokenOnlyVerifier emptyDb "other" =
      .httpError 401 "Invalid token" ∧
    (HandlerOutcome.httpError 404 "User not found" :
      HandlerOutcome UserRec) ≠ .httpError 401 "Invalid token" := by
  refine ⟨rfl, rfl, by decide⟩

/-- C7 (amended): the dependency fails with the 401 unauthenticated outcome
when token verification fails, fails with the 404 not-found outcome when the
token's subject no longer resolves to a user, and performs the requested
operation (returns the resolved user) only when both steps succeed. -/
theorem get_current_user_dependency_spec (verifyToken : String → Option String)
    (db : Db) (token : String) :
    (verifyToken token = none →
      get_current_user_dependency verifyToken db token =
        .httpError 401 "Invalid token") ∧
    (∀ email, verifyToken token = some email →
      get_user_by_email db email = none →
      get_current_user_dependency verifyToken db token =
        .httpError 404 "User not found") ∧
    (∀ email u, verifyToken token = some email →
      get_user_by_email db email = some u →
      get_current_user_dependency verifyToken db token = .ok u) := by
  refine ⟨?_, ?_, ?_⟩ <;> intros <;> simp [get_current_user_dependency, *]

/-- Witness for C7's amended theorem: all three cases at concrete tokens and
stores. -/
theorem get_current_user_dependency_spec_witness :
    get_current_user_dependency tokenOnlyVerifier sessionOnlyDb "bad" =
      .httpError 401 "Invalid token" ∧
    get_current_user_dependency tokenOnlyVerifier emptyDb "tok" =
      .httpError 404 "User not found" ∧
    get_current_user_dependency tokenOnlyVerifier sessionOnlyDb "tok" =
      .ok { id := 1, email := "a@x.com", name := "A", hashed_password := "h",
            is_active := true, created_at := 0 } := by
  refine ⟨?_, ?_, ?_⟩
  · exact (get_current_user_dependency_spec tokenOnlyVerifier sessionOnlyDb
      "bad").1 rfl
  · exact (get_current_user_dependency_spec tokenOnlyVerifier emptyDb
      "tok").2.1 "a@x.com" rfl rfl
  · exact (get_current_user_dependency_spec tokenOnlyVerifier sessionOnlyDb
      "tok").2.2 "a@x.com" _ rfl rfl

/-- Helper: the store's message table after `add_messages`: the new rows are
appended in order after the existing rows. -/
theorem add_messages_state (session_id : Nat) :
    ∀ (items : List (String × String)) (db : Db),
      (add_messages db session_id items).messages =
        db.messages ++ newMsgs db.nextId db.now session_id items := by
  intro items
  induction items with
  | nil =>
    intro db
    simp [add_messages, newMsgs]
  | cons item rest ih =>
    intro db
    have hstep : add_messages db session_id (item :: rest) =
        add_messages (add_message_to_session db session_id item.1 item.2).2
          session_id rest := rfl
    rw [hstep, ih]
    simp [add_message_to_session, newMsgs]

/-- Helper: the rows `add_messages` creates all belong to the target
session, carry exactly the input items' contents and roles in order, and
have strictly increasing creation timestamps starting at the clock value. -/
theorem newMsgs_fields (session_id : Nat) :
    ∀ (items : List (String × String)) (startId startNow : Nat),
      (newMsgs startId startNow session_id items).filter
        (fun m => m.session_id = session_id) =
        newMsgs startId startNow session_id items ∧
      (newMsgs startId startNow session_id items).map
        (fun m => (m.content, m.sender_type)) = items ∧
      (∀ m ∈ newMsgs startId startNow session_id items,
        startNow ≤ m.created_at) ∧
      List.Pairwise (fun a b => a.created_at < b.created_at)
        (newMsgs startId startNow session_id items) := by
  intro items
  induction items with
  | nil =>
    intro startId startNow
    simp [newMsgs]
  | cons item rest ih =>
    intro startId startNow
    obtain ⟨h1, h2, h3, h4⟩ := ih (startId + 1) (startNow + 1)
    refine ⟨?_, ?_, ?_, ?_⟩
    · simp [newMsgs, h1]
    · simp [newMsgs, h2]
    · intro m hm
      simp only [newMsgs, List.mem_cons] at hm
      rcases hm with rfl | hm
      · simp
      · have := h3 m hm
        omega
    · rw [newMsgs, List.pairwise_cons]
      refine ⟨?_, h4⟩
      intro m hm
      have := h3 m hm
      simp only []
      omega

/-- C8: appending N (content, role) items via `add_message_to_session` to a
session whose listing is empty and then listing that session's messages
returns exactly those N rows, in append order, with the given contents and
roles and strictly increasing creation timestamps (oldest first); moreover
each single append updates the parent session's last-updated timestamp to
the current clock value. -/
theorem add_then_list_messages (db : Db) (session_id : Nat)
    (items : List (String × String))
    (hfresh : get_session_messages db session_id = []) :
    get_session_messages (add_messages db session_id items) session_id =
      newMsgs db.nextId db.now session_id items ∧
    (newMsgs db.nextId db.now session_id items).map
      (fun m => (m.content, m.sender_type)) = items ∧
    (newMsgs db.nextId db.now session_id items).length = items.length ∧
    List.Pairwise (fun a b => a.created_at < b.created_at)
      (newMsgs db.nextId db.now session_id items) ∧
    (∀ (d : Db) (content role : String) (s : ChatSessionRec),
      s ∈ d.sessions → s.id = session_id →
      { s with updated_at := d.now } ∈
        (add_message_to_session d session_id content role).2.sessions) := by
  obtain ⟨hfil, hmap, hlow, hsorted⟩ :=
    newMsgs_fields session_id items db.nextId db.now
  have hempty : db.messages.filter (fun m => m.session_id = session_id) = [] := by
    have hperm := List.perm_insertionSort
      (fun a b : ChatMessageRec => a.created_at ≤ b.created_at)
      (db.messages.filter (fun m => m.session_id = session_id))
    rw [get_session_messages] at hfresh
    rw [hfresh] at hperm
    exact (hperm.symm).eq_nil
  refine ⟨?_, hmap, ?_, hsorted, ?_⟩
  · rw [get_session_messages, add_messages_state session_id items db,
      List.filter_append, hempty, List.nil_append, hfil]
    exact List.Sorted.insertionSort_eq
      (hsorted.imp (fun h => Nat.le_of_lt h))
  · simpa using congrArg List.length hmap
  · intro d content role s hs hid
    subst hid
    have hmem := List.mem_map_of_mem
      (fun t : ChatSessionRec =>
        if t.id = s.id then { t with updated_at := d.now } else t) hs
    simp only [if_pos rfl] at hmem
    simpa [add_message_to_session] using hmem

/-- Witness for C8: two items appended to the fresh session of
`sessionOnlyDb` (id 1, clock 2) and listed back as exactly those two rows in
order, and the session row's last-updated timestamp after one append. -/
theorem add_then_list_messages_witness :
    get_session_messages
        (add_messages sessionOnlyDb 1 [("a", "user"), ("b", "bot")]) 1 =
      [{ id := 2, session_id := 1, content := "a", sender_type := "user",
         created_at := 2 },
       { id := 3, session_id := 1, content := "b", sender_type := "bot",
         created_at := 3 }] ∧
    { id := 1, user_id := 1, title := "New Chat", created_at := 1,
      updated_at := 2 } ∈
      (add_message_to_session sessionOnlyDb 1 "a" "user").2.sessions := by
  have h := add_then_list_messages sessionOnlyDb 1 [("a", "user"), ("b", "bot")]
    rfl
  constructor
  · exact h.1.trans rfl
  · exact h.2.2.2.2 sessionOnlyDb "a" "user"
      { id := 1, user_id := 1, title := "New Chat", created_at := 1,
        updated_at := 1 } (by simp [sessionOnlyDb]) rfl

/-- C9: registration with an email not present in the store succeeds and
creates exactly one user record (the store grows by exactly that record); a
subsequent registration with the same email - whatever the other fields -
fails with the duplicate-email error and leaves the store unchanged;
registering an email that is already present likewise fails with no new
record. -/
theorem register_unique_email (hashPassword : String → String) (db : Db)
    (user : UserCreate) :
    (get_user_by_email db user.email = none →
      (register hashPassword db user).1 = .ok (db.nextId, user.email) ∧
      (register hashPassword db user).2.users =
        db.users ++
          [{ id := db.nextId, email := user.email, name := user.name,
             hashed_password := hashPassword user.password,
             is_active := true, created_at := db.now }] ∧
      (register hashPassword db user).2.users.length = db.users.length + 1 ∧
      (∀ user2 : UserCreate, user2.email = user.email →
        register hashPassword (register hashPassword db user).2 user2 =
          (.httpError 400 "Email already registered",
            (register hashPassword db user).2))) ∧
    (∀ u, get_user_by_email db user.email = some u →
      register hashPassword db user =
        (.httpError 400 "Email already registered", db)) := by
  constructor
  · intro h
    refine ⟨?_, ?_, ?_, ?_⟩
    · simp [register, create_user, h]
    · simp [register, create_user, h]
    · simp [register, create_user, h]
    · intro user2 h2
      set db2 := (register hashPassword db user).2 with hdb2
      have hfound : get_user_by_email db2 user2.email =
          some { id := db.nextId, email := user.email, name := user.name,
                 hashed_password := hashPassword user.password,
                 is_active := true, created_at := db.now } := by
        rw [hdb2, h2]
        simp only [register, h]
        rw [get_user_by_email] at h
        simp [get_user_by_email, create_user, List.find?_append, h]
      simp [register, hfound]
  · intro u h
    simp [register, h]

/-- Witness for C9: registering `b@x.com` into the empty store, then
attempting it again. -/
theorem register_unique_email_witness :
    (register hashFixture emptyDb
      { email := "b@x.com", name := "B", password := "pw" }).1 =
      .ok (1, "b@x.com") ∧
    register hashFixture
      (register hashFixture emptyDb
        { email := "b@x.com", name := "B", password := "pw" }).2
      { email := "b@x.com", name := "B2", password := "pw2" } =
      (.httpError 400 "Email already registered",
        (register hashFixture emptyDb
          { email := "b@x.com", name := "B", password := "pw" }).2) := by
  have h := (register_unique_email hashFixture emptyDb
    { email := "b@x.com", name := "B", password := "pw" }).1 rfl
  exact ⟨h.1, h.2.2.2 { email := "b@x.com", name := "B2", password := "pw2" }
    rfl⟩

/-- Helper: updating a session title (conditionally) does not touch the
message table, the id counter, or the clock. -/
theorem update_session_title_if_state (c : Prop) [Decidable c] (d : Db)
    (session_id : Nat) (t : String) :
    (if c then update_session_title d session_id t else d).messages =
      d.messages ∧
    (if c then update_session_title d session_id t else d).nextId =
      d.nextId ∧
    (if c then update_session_title d session_id t else d).now = d.now := by
  by_cases h : c <;> simp [h, update_session_title]

/-- C10: on both the send-message and the stream-message endpoints, once the
ownership check passes, the incoming message is persisted with sender role
exactly "user" - whatever `sender_type` string the client supplied in the
request body - followed by the generated reply persisted with sender role
"bot". -/
theorem send_message_persists_user_role (cfg : ORConfig) (env : NetEnv)
    (parseJson : String → Option Json) (db : Db) (caller session_id : Nat)
    (message : ChatMessageCreate) (s : ChatSessionRec)
    (hcheck : session_ownership_check db session_id caller = some s) :
    (handler_send_message cfg env parseJson db caller session_id
        message).2.messages =
      db.messages ++
        [{ id := db.nextId, session_id := session_id,
           content := message.content, sender_type := "user",
           created_at := db.now },
         { id := db.nextId + 1, session_id := session_id,
           content := (generate_response cfg env parseJson
             (format_messages_for_api (get_session_messages
               (add_message_to_session db session_id message.content
                 "user").2 session_id)) false).2,
           sender_type := "bot", created_at := db.now + 1 }] ∧
    (handler_send_message_stream cfg env parseJson db caller session_id
        message).2.messages =
      db.messages ++
        [{ id := db.nextId, session_id := session_id,
           content := message.content, sender_type := "user",
           created_at := db.now },
         { id := db.nextId + 1, session_id := session_id,
           content := (generate_response cfg env parseJson
             (format_messages_for_api (get_session_messages
               (add_message_to_session db session_id message.content
                 "user").2 session_id)) true).2,
           sender_type := "bot", created_at := db.now + 1 }] := by
  constructor
  · simp only [handler_send_message, hcheck]
    simp [add_message_to_session, (update_session_title_if_state _ _ _ _).1,
      (update_session_title_if_state _ _ _ _).2.1,
      (update_session_title_if_state _ _ _ _).2.2]
  · simp only [handler_send_message_stream, hcheck]
    simp [add_message_to_session, (update_session_title_if_state _ _ _ _).1,
      (update_session_title_if_state _ _ _ _).2.1,
      (update_session_title_if_state _ _ _ _).2.2]

/-- Witness for C10: a concrete send on `sessionOnlyDb` whose request body
claims `sender_type` "bot"; both endpoints still persist the incoming
message with sender role "user" (the reply row carries the not-configured
fallback, as the fixture has no API key). -/
theorem send_message_persists_user_role_witness :
    (handler_send_message { api_key := "", model := "m" } (envFail .otherExc)
        parseNothing sessionOnlyDb 1 1
        { content := "hi", sender_type := "bot" }).2.messages =
      [{ id := 2, session_id := 1, content := "hi", sender_type := "user",
         created_at := 2 },
       { id := 3, session_id := 1, content := notConfiguredText,
         sender_type := "bot", created_at := 3 }] ∧
    (handler_send_message_stream { api_key := "", model := "m" }
        (envFail .otherExc) parseNothing sessionOnlyDb 1 1
        { content := "hi", sender_type := "bot" }).2.messages =
      [{ id := 2, session_id := 1, content := "hi", sender_type := "user",
         created_at := 2 },
       { id := 3, session_id := 1, content := notConfiguredText,
         sender_type := "bot", created_at := 3 }] := by
  have h := send_message_persists_user_role { api_key := "", model := "m" }
    (envFail .otherExc) parseNothing sessionOnlyDb 1 1
    { content := "hi", sender_type := "bot" }
    { id := 1, user_id := 1, title := "New Chat", created_at := 1,
      updated_at := 1 } rfl
  exact ⟨h.1.trans rfl, h.2.trans rfl⟩

end Chatbot
